import Mathlib

/-!
# Verification of the talk-to-all-llms-at-once utilities

Shallow embedding of the repository's Python scripts:

* `openrouter.py` — `OpenRouterClient` (thin wrapper over the external
  OpenAI-compatible client; the chat-completion call is modelled as an
  oracle function from model id and message list to an outcome carrying
  the settle time).
* `parallel_query.py` / `parallel_query_three.py` — `query_model`,
  `query_models_in_parallel`, `display_results`, `main`.
* `list_models.py` — `get_openrouter_models`, `get_total_price`,
  `save_models_to_file`.

Times are modelled as rationals (the scripts treat them as opaque numeric
values: they are only subtracted, compared for sorting, and serialized).
The wall clock is abstracted into the call outcome: each completion call
settles after some elapsed duration, and every `time.time() - start_time`
evaluation made once the call has settled yields that duration.
-/

namespace TalkLLMs

/-- `usage` object of a chat completion (`prompt_tokens`,
`completion_tokens`, `total_tokens`). -/
structure Usage where
  prompt_tokens : Nat
  completion_tokens : Nat
  total_tokens : Nat
deriving DecidableEq, Repr

/-- One chat message `{"role": ..., "content": ...}`. -/
structure Message where
  role : String
  content : String
deriving DecidableEq, Repr

/-- One element of `completion.choices`. -/
structure Choice where
  message : Message
  finish_reason : String
deriving DecidableEq, Repr

/-- The completion object returned by the chat-completion endpoint:
canonical model name, choices, token usage. -/
structure Completion where
  model : String
  choices : List Choice
  usage : Usage
deriving DecidableEq, Repr

/-- Outcome of one `client.generate_completion` call, together with the
elapsed wall-clock duration from `start_time` until the call settled.
`failure msg t` models any raised exception with `str(e) = msg`. -/
inductive CallOutcome where
  | success (c : Completion) (elapsed : ℚ)
  | failure (msg : String) (elapsed : ℚ)
deriving DecidableEq, Repr

/-- The chat-completion client: for a model id and a message list it
yields the outcome of the (blocking) network round trip.  This is the
external interface `OpenRouterClient.generate_completion` consumed by the
scripts. -/
def Client : Type := String → List Message → CallOutcome

/-- The result dictionary built by `query_model` (the QueryResult shape):
`{model_id, model_name, response, elapsed_time, finish_reason, tokens}`. -/
structure QueryResult where
  model_id : String
  model_name : String
  response : String
  elapsed_time : ℚ
  finish_reason : String
  tokens : Usage
deriving DecidableEq, Repr

/-- `query_model(model_id, prompt, client)` from `parallel_query.py`
lines 56-99 (identical in `parallel_query_three.py` lines 18-61): builds
the single-user-message list, issues the completion call, and on success
extracts name/text/finish reason/usage; any exception — including the
`IndexError` raised by `completion.choices[0]` on an empty choice list —
is caught and converted into an error-shaped result with
`model_name = model_id`, `response = "Error: " + str(e)`,
`finish_reason = "error"` and zero token counts. -/
def query_model (client : Client) (model_id : String) (prompt : String) :
    QueryResult :=
  let messages : List Message := [{ role := "user", content := prompt }]
  match client model_id messages with
  | .success c t =>
    match c.choices with
    | [] =>
      { model_id := model_id
        model_name := model_id
        response := "Error: list index out of range"
        elapsed_time := t
        finish_reason := "error"
        tokens := ⟨0, 0, 0⟩ }
    | ch :: _ =>
      { model_id := model_id
        model_name := c.model
        response := ch.message.content
        elapsed_time := t
        finish_reason := ch.finish_reason
        tokens := ⟨c.usage.prompt_tokens, c.usage.completion_tokens,
                   c.usage.total_tokens⟩ }
  | .failure msg t =>
      { model_id := model_id
        model_name := model_id
        response := "Error: " ++ msg
        elapsed_time := t
        finish_reason := "error"
        tokens := ⟨0, 0, 0⟩ }

/-- The results produced by the futures in dispatch order: one
`query_model` invocation per requested id (`executor.submit(query_model,
model_id, prompt, client)` for each `model_id`; each `submit` yields a
distinct future, so duplicate ids still get independent entries). -/
def dispatchAll (client : Client) (modelIds : List String)
    (prompt : String) : List QueryResult :=
  modelIds.map (fun m => query_model client m prompt)

/-- Error raised by `ThreadPoolExecutor.__init__`: CPython raises
`ValueError("max_workers must be greater than 0")` when
`max_workers <= 0`, which happens when the model list is empty. -/
inductive PoolError where
  | maxWorkersMustBePositive
deriving DecidableEq, Repr

/-- `query_models_in_parallel(prompt)` from `parallel_query.py` lines
101-129 / `parallel_query_three.py` lines 63-97, generalized over the
model-id list (`parallel_query.py` instantiates it with the global
`MODELS`; `parallel_query_three.py` with its local three-element list).
Constructing the pool with `max_workers = len(models)` fails for an
empty list; otherwise one `query_model` future is submitted per id and
every future is awaited.  The canonical returned order is dispatch
order; `concurrent.futures.as_completed` may deliver any permutation of
it, which the theorems quantify over. -/
def query_models_in_parallel (client : Client) (modelIds : List String)
    (prompt : String) : Except PoolError (List QueryResult) :=
  if modelIds.length = 0 then
    .error .maxWorkersMustBePositive
  else
    .ok (dispatchAll client modelIds prompt)

/-- The hard-coded global `MODELS` list of `parallel_query.py`. -/
def MODELS : List String :=
  [ "anthropic/claude-3-7-sonnet-thinking"
  , "openai/o3-mini-2025-01-31-high"
  , "openai/o1-2024-12-17-high"
  , "xai/grok-3-thinking"
  , "alibaba/qwq-32b"
  , "deepseek/deepseek-r1"
  , "openai/o3-mini-2025-01-31-medium"
  , "openai/gpt-4.5-preview"
  , "google/gemini-2.0-flash-thinking-exp-01-21"
  , "anthropic/claude-3-7-sonnet"
  , "google/gemini-2.0-pro-exp-02-05"
  , "google/gemini-exp-1206"
  , "openai/o3-mini-2025-01-31-low"
  , "alibaba/qwen2.5-max"
  , "google/gemini-2.0-flash"
  , "deepseek/deepseek-v3"
  , "google/gemini-2.0-flash-exp"
  , "anthropic/claude-3-5-sonnet-20241022"
  , "xai/grok-3"
  , "openai/chatgpt-4o-latest-2025-01-29"
  , "openai/o1-mini-2024-09-12"
  , "stepfun/step-2-16k-202411"
  , "openai/gpt-4o-2024-08-06"
  , "deepseek/deepseek-r1-distill-llama-70b"
  , "xai/grok-2-1212"
  , "google/gemini-2.0-flash-lite"
  , "google/gemini-2.0-flash-lite-preview-02-05"
  , "abacusai/dracarys2-72b-instruct"
  , "meta/meta-llama-3.1-405b-instruct-turbo"
  , "openai/gpt-4o-2024-11-20"
  , "google/learnlm-1.5-pro-experimental"
  , "alibaba/qwen2.5-72b-instruct-turbo"
  , "meta/llama-3.3-70b-instruct-turbo"
  , "google/gemma-3-27b-it" ]

/-- The local model list of `parallel_query_three.py`. -/
def MODELS_THREE : List String :=
  [ "anthropic/claude-3.7-sonnet"
  , "google/gemini-pro-1.5"
  , "openai/o1" ]

end TalkLLMs

namespace TalkLLMs

/-- A client whose every call fails, used to exercise the error paths on
concrete inputs. -/
def failingClient (msg : String) (t : ℚ) : Client :=
  fun _ _ => .failure msg t

/-- The ordering used by `results.sort(key=lambda x: x["elapsed_time"])`:
ascending elapsed time.  Python's `list.sort` is stable; Mathlib's
`List.insertionSort` with this reflexive total preorder realizes exactly
the stable ascending sort. -/
def elapsedLE (a b : QueryResult) : Prop :=
  a.elapsed_time ≤ b.elapsed_time

instance : DecidableRel elapsedLE :=
  fun a b => inferInstanceAs (Decidable (a.elapsed_time ≤ b.elapsed_time))

instance : IsTotal QueryResult elapsedLE :=
  ⟨fun a b => le_total a.elapsed_time b.elapsed_time⟩

instance : IsTrans QueryResult elapsedLE :=
  ⟨fun _ _ _ hab hbc => le_trans hab hbc⟩

/-- `results.sort(key=lambda x: x["elapsed_time"])` from
`display_results` (`parallel_query.py` line 140). -/
def sortResults (rs : List QueryResult) : List QueryResult :=
  List.insertionSort elapsedLE rs

/-- JSON values, as produced by `json.dump` and read back by the JSON
parser.  The scripts only ever serialize strings, numbers, arrays and
objects. -/
inductive Json where
  | str : String → Json
  | num : ℚ → Json
  | arr : List Json → Json
  | obj : List (String × Json) → Json

/-- Field lookup in a JSON object (first binding wins, as in a parsed
JSON object). -/
def jsonGet (j : Json) (k : String) : Option Json :=
  match j with
  | .obj fs => (fs.find? (fun f => f.fst == k)).map (fun f => f.snd)
  | _ => none

/-- Serialization of one QueryResult dictionary, key order as built in
`query_model`. -/
def resultToJson (r : QueryResult) : Json :=
  .obj [ ("model_id", .str r.model_id)
       , ("model_name", .str r.model_name)
       , ("response", .str r.response)
       , ("elapsed_time", .num r.elapsed_time)
       , ("finish_reason", .str r.finish_reason)
       , ("tokens", .obj [ ("prompt", .num r.tokens.prompt_tokens)
                         , ("completion", .num r.tokens.completion_tokens)
                         , ("total", .num r.tokens.total_tokens) ]) ]

/-- The persisted comparison record `{prompt, timestamp, results}`. -/
structure ComparisonRecord where
  prompt : String
  timestamp : String
  results : List QueryResult

/-- `json.dump({"prompt": ..., "timestamp": ..., "results": ...}, f)`
(`parallel_query.py` lines 180-185).  `json.dump`/`json.load` round-trip
fidelity on these value shapes is the standard-library contract; the file
content is modelled as the JSON value written. -/
def recordToJson (rec : ComparisonRecord) : Json :=
  .obj [ ("prompt", .str rec.prompt)
       , ("timestamp", .str rec.timestamp)
       , ("results", .arr (rec.results.map resultToJson)) ]

/-- Observable output of `display_results(results, prompt)`
(`parallel_query.py` lines 131-187, identical in
`parallel_query_three.py` lines 99-155): the list is sorted in place by
elapsed time, the metrics table and the per-result panels iterate that
sorted list, and the same list is serialized into the timestamped file.
Rendering to text is presentation only; `displayed` records the sequence
the table rows and panels iterate. -/
structure DisplayOutput where
  displayed : List QueryResult
  record : ComparisonRecord
  filename : String
  savedJson : Json

/-- `display_results(results, prompt)` with the run timestamp string
(`datetime.now().strftime("%Y%m%d_%H%M%S")`) abstracted as a
parameter. -/
def display_results (results : List QueryResult) (prompt : String)
    (timestamp : String) : DisplayOutput :=
  let sorted := sortResults results
  { displayed := sorted
  , record := { prompt := prompt, timestamp := timestamp, results := sorted }
  , filename := "comparison_results_" ++ timestamp ++ ".json"
  , savedJson := recordToJson
      { prompt := prompt, timestamp := timestamp, results := sorted } }

/-- ASCII whitespace as recognized by Python's `str.strip()` (the
scripts only ever strip ASCII input; the wider Unicode set is not
exercised). -/
def isPyWhitespace (c : Char) : Bool :=
  c = ' ' || c = '\t' || c = '\n' || c = '\r' || c = '\x0b' || c = '\x0c'

/-- Python `s.strip()`: drop leading and trailing whitespace. -/
def strip (s : String) : String :=
  String.mk (((s.toList.dropWhile isPyWhitespace).reverse.dropWhile
    isPyWhitespace).reverse)

/-- Value of a decimal digit string read most-significant first. -/
def digitsToNat (ds : List Char) : Nat :=
  ds.foldl (fun acc c => 10 * acc + (c.toNat - 48)) 0

/-- Scale a mantissa by the exponent part of a float literal. -/
def applyExp (mant : ℚ) (neg : Bool) (e : Nat) : ℚ :=
  if neg then mant / 10 ^ e else mant * 10 ^ e

/-- Parse the tail after `e`/`E` in a float literal: optional sign and at
least one digit, nothing after. -/
def parseExpTail (mant : ℚ) (cs : List Char) : Option ℚ :=
  let (eneg, cs1) :=
    match cs with
    | '-' :: r => (true, r)
    | '+' :: r => (false, r)
    | _ => (false, cs)
  let eDs := cs1.takeWhile Char.isDigit
  let rest := cs1.dropWhile Char.isDigit
  if eDs.isEmpty || !rest.isEmpty then none
  else some (applyExp mant eneg (digitsToNat eDs))

/-- Python's `float()` on the string shapes the pricing fields carry:
optional surrounding whitespace, optional sign, digits with an optional
fractional part (at least one digit overall), optional `e`/`E` exponent.
Exact rational semantics stands in for the numeric value; any
non-numeric string yields `none` (Python raises `ValueError`). -/
def parseDecimal (s : String) : Option ℚ :=
  let cs := (strip s).toList
  let (neg, cs1) :=
    match cs with
    | '-' :: r => (true, r)
    | '+' :: r => (false, r)
    | _ => (false, cs)
  let intDs := cs1.takeWhile Char.isDigit
  let cs2 := cs1.dropWhile Char.isDigit
  let (fracDs, cs3) :=
    match cs2 with
    | '.' :: r => (r.takeWhile Char.isDigit, r.dropWhile Char.isDigit)
    | _ => ([], cs2)
  if intDs.isEmpty && fracDs.isEmpty then none
  else
    let mant : ℚ :=
      (digitsToNat intDs : ℚ) + (digitsToNat fracDs : ℚ) / 10 ^ fracDs.length
    let signed := if neg then -mant else mant
    match cs3 with
    | [] => some signed
    | 'e' :: r => parseExpTail signed r
    | 'E' :: r => parseExpTail signed r
    | _ => none

/-- A model entry of the catalog response (`models_data['data'][i]`),
restricted to what `list_models.py` inspects: the `id`, the optional
`pricing` sub-mapping with string-valued rates as the API delivers them,
and the remaining fields, kept here as flat key/value pairs (the claims
do not depend on nested-field rendering). -/
structure ModelDescriptor where
  id : String
  pricing : Option (List (String × String))
  extra : List (String × String)
deriving DecidableEq, Repr

/-- `d.get(k)` on a parsed JSON object: first binding wins. -/
def dictGet (d : List (String × String)) (k : String) : Option String :=
  (d.find? (fun kv => kv.fst == k)).map (fun kv => kv.snd)

/-- The `ValueError` raised by `float()` on a non-numeric pricing
value. -/
inductive ParseError where
  | valueError
deriving DecidableEq, Repr

/-- `float(pricing.get(k, 0))`: a missing rate defaults to `0`; a
present rate is parsed, `none` meaning `ValueError`. -/
def priceOf (pricing : List (String × String)) (k : String) : Option ℚ :=
  match dictGet pricing k with
  | none => some 0
  | some v => parseDecimal v

/-- `get_total_price(model)` from `list_models.py` lines 74-78: numeric
`prompt` rate plus numeric `completion` rate of `model.get('pricing',
{})`, each missing rate treated as 0; a non-numeric value raises. -/
def get_total_price (model : ModelDescriptor) : Except ParseError ℚ :=
  let pricing := model.pricing.getD []
  match priceOf pricing "prompt" with
  | none => .error .valueError
  | some p =>
    match priceOf pricing "completion" with
    | none => .error .valueError
    | some c => .ok (p + c)

/-- `sorted(models, key=get_total_price, ...)` evaluates the key once
per element, in list order, propagating the first `ValueError`; on
success it yields the key-decorated list. -/
def computeKeys :
    List ModelDescriptor → Except ParseError (List (ModelDescriptor × ℚ))
  | [] => .ok []
  | m :: ms =>
    match get_total_price m with
    | .error e => .error e
    | .ok q =>
      match computeKeys ms with
      | .error e => .error e
      | .ok rest => .ok ((m, q) :: rest)

/-- The ordering of `sorted(..., reverse=True)` on the decorated list:
descending total price.  Python's `sorted` is stable also with
`reverse=True`; `List.insertionSort` with this relation realizes exactly
that stable descending sort. -/
def priceGE (a b : ModelDescriptor × ℚ) : Prop :=
  b.2 ≤ a.2

instance : DecidableRel priceGE :=
  fun a b => inferInstanceAs (Decidable (b.2 ≤ a.2))

instance : IsTotal (ModelDescriptor × ℚ) priceGE :=
  ⟨fun a b => (le_total b.2 a.2).imp id id⟩

instance : IsTrans (ModelDescriptor × ℚ) priceGE :=
  ⟨fun _ _ _ hab hbc => le_trans hbc hab⟩

/-- The sorting pass of `sorted(models, key=get_total_price,
reverse=True)` once all keys are computed. -/
def sortPairsDesc (l : List (ModelDescriptor × ℚ)) :
    List (ModelDescriptor × ℚ) :=
  List.insertionSort priceGE l

/-- One `f.write` of `save_models_to_file`, by shape.  The textual
rendering (f-string formatting) is presentation only; the constructors
record what is written and in which order. -/
inductive Line where
  | headerMain
  | headerSorted
  | headerRule
  | modelId (id : String)
  | totalPrice (q : ℚ)
  | pricingHeader
  | pricingKV (k v : String)
  | fieldKV (k v : String)
  | blank
  | separator
  | trailerCount (n : Nat)
  | trailerSource
  | trailerSortedNote
  | metaKV (k v : String)
deriving DecidableEq, Repr

/-- The lines written for one model inside the display loop
(`list_models.py` lines 83-125): id and total price first, then the
pricing sub-mapping under its header, then the remaining fields
verbatim, then a blank line and a separator. -/
def entryLines (m : ModelDescriptor) (total : ℚ) : List Line :=
  [.modelId m.id, .totalPrice total]
  ++ (match m.pricing with
      | some pr => Line.pricingHeader :: pr.map (fun kv => Line.pricingKV kv.1 kv.2)
      | none => [])
  ++ m.extra.map (fun kv => Line.fieldKV kv.1 kv.2)
  ++ [.blank, .separator]

/-- The display loop over the sorted models: each iteration recomputes
the two `float(...)` prices (which can raise before any line of that
model is written) and then writes the model's lines.  On an exception
the lines already written stay in the file. -/
def writeEntries :
    List ModelDescriptor → Except (ParseError × List Line) (List Line)
  | [] => .ok []
  | m :: ms =>
    match get_total_price m with
    | .error e => .error (e, [])
    | .ok q =>
      match writeEntries ms with
      | .error (e, part) => .error (e, entryLines m q ++ part)
      | .ok rest => .ok (entryLines m q ++ rest)

/-- The parsed catalog response: the `data` array (absent ↦ `[]` via
`models_data.get('data', [])`) and any top-level metadata fields
sibling to it. -/
structure ModelsData where
  data : Option (List ModelDescriptor)
  extraMeta : List (String × String)
deriving DecidableEq, Repr

/-- The three header lines written immediately after the file is opened
(`list_models.py` lines 66-68), before any pricing value is parsed. -/
def headerLines : List Line :=
  [.headerMain, .headerSorted, .headerRule]

/-- The summary block at the end of the report (`list_models.py` lines
128-135). -/
def trailerLines (md : ModelsData) (n : Nat) : List Line :=
  [.trailerCount n, .trailerSource, .trailerSortedNote]
  ++ md.extraMeta.map (fun kv => Line.metaKV kv.1 kv.2)

/-- `save_models_to_file(models_data)` from `list_models.py` lines
56-135: opens (truncates) the report file, writes the header, then sorts
the models by total price — where a non-numeric pricing value raises
`ValueError` — then writes one entry per model and the trailer.  The
first component is the file content after the call (the buffered writes
are flushed when the `with` block closes the file, also when an
exception propagates); the second is the propagated error, if any. -/
def save_models_to_file (md : ModelsData) : List Line × Option ParseError :=
  let models := md.data.getD []
  match computeKeys models with
  | .error e => (headerLines, some e)
  | .ok pairs =>
    let sorted_models := (sortPairsDesc pairs).map Prod.fst
    match writeEntries sorted_models with
    | .error (e, part) => (headerLines ++ part, some e)
    | .ok body => (headerLines ++ body ++ trailerLines md models.length, none)

/-- Concrete catalog entry: total price 0.010 (used to exercise the
catalog theorems on concrete data). -/
def mCheap : ModelDescriptor :=
  ⟨"cheap/model", some [("prompt", "0.005"), ("completion", "0.005")], []⟩

/-- Concrete catalog entry: total price 0.018. -/
def mPricey : ModelDescriptor :=
  ⟨"pricey/model", some [("prompt", "0.003"), ("completion", "0.015")], []⟩

/-- Concrete catalog entry: total price 0.010 again (tie with
`mCheap`), with a missing completion rate. -/
def mCheapBis : ModelDescriptor :=
  ⟨"cheap/model-2", some [("prompt", "0.01")], []⟩

/-- A catalog response whose single model has a non-numeric pricing
value. -/
def badCatalog : ModelsData :=
  ⟨some [⟨"broken/model", some [("prompt", "not-a-number")], []⟩], []⟩

/-- Observable outcome of `main()`: the decision-relevant console
messages, the number of per-model completion requests issued, and the
display/persist output when the run completed. -/
structure MainOutcome where
  messages : List String
  completionRequests : Nat
  saved : Option DisplayOutput

/-- `main()` of `parallel_query.py` lines 189-207 and
`parallel_query_three.py` lines 157-175, with the interactive prompt
input, the chat client, the model list (`MODELS` for the one script,
`MODELS_THREE` for the other) and the run timestamp as parameters.  A
prompt that strips to empty is rejected with a user-facing message
before anything is dispatched; otherwise the batch is dispatched (one
completion request per model id) and the results displayed and saved.
The function is total: every failure path ends in a printed message,
never a propagated exception. -/
def main (client : Client) (modelIds : List String) (promptInput : String)
    (timestamp : String) : MainOutcome :=
  if strip promptInput = "" then
    { messages := ["Prompt cannot be empty. Exiting."]
      completionRequests := 0
      saved := none }
  else
    match query_models_in_parallel client modelIds promptInput with
    | .error _ =>
      { messages := ["An error occurred"]
        completionRequests := 0
        saved := none }
    | .ok results =>
      { messages := []
        completionRequests := modelIds.length
        saved := some (display_results results promptInput timestamp) }

/-- The process environment: the one credential variable the tools
require (`os.environ.get("OPENROUTER_API_KEY")`). -/
structure Env where
  apiKey : Option String

/-- Outcome of the `curl` subprocess (`subprocess.run(..., check=True)`):
captured stdout on success, or a raised `CalledProcessError`. -/
inductive CurlOutcome where
  | success (stdout : String)
  | failure (msg : String)

/-- The failures of `get_openrouter_models`: missing credential
(`ValueError`, raised before the request), curl failure
(`CalledProcessError`), malformed body (`JSONDecodeError`). -/
inductive FetchError where
  | valueError (msg : String)
  | calledProcessError (msg : String)
  | jsonDecodeError (msg : String)
deriving DecidableEq, Repr

/-- `get_openrouter_models()` from `list_models.py` lines 12-53, with
the curl round trip and the `json.loads` parse (both external) as
oracles.  The second component counts HTTP requests issued.  The
credential check precedes the request: with a missing key the function
raises `ValueError` before curl ever runs. -/
def get_openrouter_models (env : Env) (curl : CurlOutcome)
    (jsonLoads : String → Option ModelsData) :
    Except FetchError ModelsData × Nat :=
  match env.apiKey with
  | none =>
    (.error (.valueError "OPENROUTER_API_KEY environment variable not found"),
      0)
  | some _ =>
    match curl with
    | .failure msg => (.error (.calledProcessError msg), 1)
    | .success out =>
      match jsonLoads out with
      | none => (.error (.jsonDecodeError out), 1)
      | some d => (.ok d, 1)

/-- Modelled from the spec: the constructor of the external
OpenAI-compatible client invoked by `OpenRouterClient.__init__`
(`openrouter.py` lines 20-23) is not repository code; per the spec (§6:
absence of the credential is a fatal configuration error reported
before any network activity) it fails at construction time, before any
request is sent, when it receives no API key. -/
def OpenAI_init (apiKey : Option String) : Except String String :=
  match apiKey with
  | none => .error "The api_key client option must be set"
  | some k => .ok k

/-- `OpenRouterClient.__init__` (`openrouter.py` lines 9-23): reads the
credential variable and hands it to the external client constructor. -/
def OpenRouterClient_init (env : Env) : Except String String :=
  OpenAI_init env.apiKey

end TalkLLMs

open TalkLLMs

/-- C1: for every prompt and non-empty model-id list, the parallel
aggregation succeeds and yields exactly one QueryResult per requested
identifier — for every settlement order (any permutation of the
dispatched results, as delivered by `as_completed`) the collected list
has length `modelIds.length`, no matter how many individual calls
failed. -/
theorem parallel_one_result_per_model (client : Client)
    (modelIds : List String) (prompt : String) (settled : List QueryResult)
    (hne : modelIds ≠ [])
    (hperm : settled.Perm (dispatchAll client modelIds prompt)) :
    query_models_in_parallel client modelIds prompt =
      .ok (dispatchAll client modelIds prompt) ∧
    settled.length = modelIds.length := by
  constructor
  · unfold query_models_in_parallel
    rw [if_neg]
    simpa using hne
  · rw [hperm.length_eq]
    simp [dispatchAll]

/-- Closed witness for C1: three requested models (with a duplicate), all
calls failing; a settlement order different from dispatch order still has
exactly three entries. -/
theorem parallel_one_result_per_model_witness :
    query_models_in_parallel (failingClient "boom" 1) ["a", "a", "b"] "hi" =
      .ok (dispatchAll (failingClient "boom" 1) ["a", "a", "b"] "hi") ∧
    ((dispatchAll (failingClient "boom" 1) ["a", "a", "b"] "hi").reverse).length
      = (["a", "a", "b"] : List String).length :=
  parallel_one_result_per_model (failingClient "boom" 1) ["a", "a", "b"] "hi"
    (dispatchAll (failingClient "boom" 1) ["a", "a", "b"] "hi").reverse
    (by decide) (List.reverse_perm _)

/-- C2: whenever the completion call for a model raises, `query_model`
returns (rather than propagates) a synthesized result whose `model_name`
is the requested id, whose response text is `"Error: "` followed by the
failure description, whose `finish_reason` is `"error"`, whose token
counts are all 0, and whose elapsed time is the duration measured from
just before the request to the failure point. -/
theorem query_model_failure_shape (client : Client)
    (model_id prompt msg : String) (t : ℚ)
    (hfail : client model_id [{ role := "user", content := prompt }] =
      .failure msg t) :
    query_model client model_id prompt =
      { model_id := model_id
        model_name := model_id
        response := "Error: " ++ msg
        elapsed_time := t
        finish_reason := "error"
        tokens := ⟨0, 0, 0⟩ } := by
  simp only [query_model, hfail]

/-- Closed witness for C2 at a concrete failing call. -/
theorem query_model_failure_shape_witness :
    query_model (failingClient "connection reset" 2) "openai/o1" "hello" =
      { model_id := "openai/o1"
        model_name := "openai/o1"
        response := "Error: connection reset"
        elapsed_time := 2
        finish_reason := "error"
        tokens := ⟨0, 0, 0⟩ } :=
  query_model_failure_shape (failingClient "connection reset" 2)
    "openai/o1" "hello" "connection reset" 2 rfl

/-- C10: the aggregation is only defined for a non-empty model list —
with an empty list the worker pool is constructed with `max_workers = 0`,
which raises, so the operation fails rather than returning an empty
result list; for every non-empty list the pool construction succeeds and
a result list is returned. -/
theorem parallel_empty_list_fails (client : Client) (prompt : String) :
    query_models_in_parallel client [] prompt =
      .error .maxWorkersMustBePositive ∧
    ∀ (m : String) (ms : List String), ∃ rs,
      query_models_in_parallel client (m :: ms) prompt = .ok rs := by
  refine ⟨rfl, fun m ms => ⟨dispatchAll client (m :: ms) prompt, ?_⟩⟩
  unfold query_models_in_parallel
  simp

/-- C3: `display_results` sorts the collected list ascending by elapsed
time before rendering, the persisted record holds the results in exactly
that same order, and the resort only permutes the list — every result
appears with all its fields unchanged (the output is a permutation of
the input). -/
theorem display_results_sorts_and_preserves (rs : List QueryResult)
    (prompt timestamp : String) :
    (display_results rs prompt timestamp).displayed = sortResults rs ∧
    (display_results rs prompt timestamp).record.results =
      (display_results rs prompt timestamp).displayed ∧
    List.Sorted elapsedLE (display_results rs prompt timestamp).displayed ∧
    ((display_results rs prompt timestamp).record.results).Perm rs := by
  refine ⟨rfl, rfl, ?_, ?_⟩
  · exact List.sorted_insertionSort elapsedLE rs
  · exact List.perm_insertionSort elapsedLE rs

/-- C8: the persisted comparison record is the JSON object
`{prompt, timestamp, results}` written to
`comparison_results_<timestamp>.json`, and reading it back recovers the
same prompt string and the same number of results as were in memory when
it was written. -/
theorem comparison_record_roundtrip (rs : List QueryResult)
    (prompt timestamp : String) :
    (display_results rs prompt timestamp).filename =
      "comparison_results_" ++ timestamp ++ ".json" ∧
    jsonGet (display_results rs prompt timestamp).savedJson "prompt" =
      some (.str prompt) ∧
    ∃ items, jsonGet (display_results rs prompt timestamp).savedJson
        "results" = some (.arr items) ∧
      items.length = rs.length := by
  refine ⟨rfl, ?_, ?_⟩
  · simp [display_results, recordToJson, jsonGet]
  · refine ⟨(sortResults rs).map resultToJson, ?_, ?_⟩
    · simp [display_results, recordToJson, jsonGet, List.find?]
    · rw [List.length_map]
      exact (List.perm_insertionSort elapsedLE rs).length_eq

/-- Evaluation: `float("0.003")` is 3/1000. -/
theorem parseDecimal_0003 : parseDecimal "0.003" = some (3 / 1000) := by
  have h : parseDecimal "0.003" =
      some ((digitsToNat ['0'] : ℚ) +
        (digitsToNat ['0', '0', '3'] : ℚ) / 10 ^ (3 : ℕ)) := rfl
  have h1 : digitsToNat ['0'] = 0 := by decide
  have h2 : digitsToNat ['0', '0', '3'] = 3 := by decide
  rw [h, h1, h2]
  norm_num

/-- Evaluation: `float("0.015")` is 15/1000. -/
theorem parseDecimal_0015 : parseDecimal "0.015" = some (15 / 1000) := by
  have h : parseDecimal "0.015" =
      some ((digitsToNat ['0'] : ℚ) +
        (digitsToNat ['0', '1', '5'] : ℚ) / 10 ^ (3 : ℕ)) := rfl
  have h1 : digitsToNat ['0'] = 0 := by decide
  have h2 : digitsToNat ['0', '1', '5'] = 15 := by decide
  rw [h, h1, h2]
  norm_num

/-- Evaluation: `float("0.005")` is 5/1000. -/
theorem parseDecimal_0005 : parseDecimal "0.005" = some (5 / 1000) := by
  have h : parseDecimal "0.005" =
      some ((digitsToNat ['0'] : ℚ) +
        (digitsToNat ['0', '0', '5'] : ℚ) / 10 ^ (3 : ℕ)) := rfl
  have h1 : digitsToNat ['0'] = 0 := by decide
  have h2 : digitsToNat ['0', '0', '5'] = 5 := by decide
  rw [h, h1, h2]
  norm_num

/-- Evaluation: `float("0.01")` is 1/100. -/
theorem parseDecimal_001 : parseDecimal "0.01" = some (1 / 100) := by
  have h : parseDecimal "0.01" =
      some ((digitsToNat ['0'] : ℚ) +
        (digitsToNat ['0', '1'] : ℚ) / 10 ^ (2 : ℕ)) := rfl
  have h1 : digitsToNat ['0'] = 0 := by decide
  have h2 : digitsToNat ['0', '1'] = 1 := by decide
  rw [h, h1, h2]
  norm_num

/-- Evaluation: `float("not-a-number")` raises (no digits found). -/
theorem parseDecimal_nan : parseDecimal "not-a-number" = none := by
  decide

/-- C5: the total price used by the report equals the numeric `prompt`
rate plus the numeric `completion` rate; a missing rate (or a missing
pricing mapping) is treated as 0; a non-numeric pricing value causes a
parse error; and a model priced `{prompt: "0.003", completion: "0.015"}`
has total price 0.018. -/
theorem get_total_price_spec :
    (∀ (m : ModelDescriptor) (p c : ℚ),
        priceOf (m.pricing.getD []) "prompt" = some p →
        priceOf (m.pricing.getD []) "completion" = some c →
        get_total_price m = .ok (p + c)) ∧
    (∀ (d : List (String × String)) (k : String),
        dictGet d k = none → priceOf d k = some 0) ∧
    (∀ (i : String) (ex : List (String × String)),
        get_total_price ⟨i, none, ex⟩ = .ok 0) ∧
    (∀ (i v : String) (ex : List (String × String)),
        parseDecimal v = none →
        get_total_price ⟨i, some [("prompt", v)], ex⟩ =
          .error .valueError) ∧
    (∀ (i : String) (ex : List (String × String)),
        get_total_price
            ⟨i, some [("prompt", "0.003"), ("completion", "0.015")], ex⟩ =
          .ok (18 / 1000)) := by
  refine ⟨?_, ?_, ?_, ?_, ?_⟩
  · intro m p c hp hc
    simp only [get_total_price, hp, hc]
  · intro d k h
    simp only [priceOf, h]
  · intro i ex
    simp only [get_total_price, priceOf, dictGet, List.find?,
      Option.getD_none, Option.map_none]
    norm_num
  · intro i v ex hv
    simp [get_total_price, priceOf, dictGet, List.find?, hv]
  · intro i ex
    have hp : priceOf
        ((some [("prompt", "0.003"), ("completion", "0.015")] :
          Option (List (String × String))).getD []) "prompt" =
        some (3 / 1000) := by
      simp [priceOf, dictGet, parseDecimal_0003]
    have hc : priceOf
        ((some [("prompt", "0.003"), ("completion", "0.015")] :
          Option (List (String × String))).getD []) "completion" =
        some (15 / 1000) := by
      simp [priceOf, dictGet, parseDecimal_0015]
    simp only [get_total_price, hp, hc]
    norm_num

/-- Closed witness for C5: the general sum law applied at the concrete
0.003/0.015 model, both rate parses discharged by evaluation. -/
theorem get_total_price_spec_witness :
    get_total_price mPricey = .ok (3 / 1000 + 15 / 1000) :=
  get_total_price_spec.1 mPricey (3 / 1000) (15 / 1000)
    (by simp [mPricey, priceOf, dictGet, parseDecimal_0003])
    (by simp [mPricey, priceOf, dictGet, parseDecimal_0015])

/-- Inserting a pair into a list with `orderedInsert priceGE` puts it in
front of every pair with the same total price (the passed-over pairs are
exactly the strictly pricier ones), so filtering by any fixed price
commutes with the insertion in the expected way. -/
theorem filter_orderedInsert_price (x : ModelDescriptor × ℚ)
    (l : List (ModelDescriptor × ℚ)) (q : ℚ) :
    (List.orderedInsert priceGE x l).filter (fun p => decide (p.2 = q)) =
      if x.2 = q then x :: l.filter (fun p => decide (p.2 = q))
      else l.filter (fun p => decide (p.2 = q)) := by
  induction l with
  | nil =>
    by_cases hx : x.2 = q <;>
      simp [List.orderedInsert, List.filter_cons, hx]
  | cons y ys ih =>
    by_cases hxy : priceGE x y
    · rw [List.orderedInsert, if_pos hxy]
      by_cases hx : x.2 = q <;>
        simp [List.filter_cons, hx]
    · rw [List.orderedInsert, if_neg hxy]
      have hylt : x.2 < y.2 := lt_of_not_le hxy
      by_cases hx : x.2 = q
      · have hy : y.2 ≠ q := fun hyq => absurd (hx ▸ hyq ▸ hylt) (lt_irrefl _)
        simp [List.filter_cons, hy, hx, ih]
      · by_cases hy : y.2 = q <;>
          simp [List.filter_cons, hy, hx, ih]

/-- Filtering by a fixed total price commutes with the descending
insertion sort: the subsequence of equal-priced pairs is unchanged (the
sort is stable). -/
theorem filter_sortPairsDesc (l : List (ModelDescriptor × ℚ)) (q : ℚ) :
    (sortPairsDesc l).filter (fun p => decide (p.2 = q)) =
      l.filter (fun p => decide (p.2 = q)) := by
  induction l with
  | nil => rfl
  | cons x xs ih =>
    show (List.orderedInsert priceGE x
        (List.insertionSort priceGE xs)).filter _ = _
    rw [filter_orderedInsert_price]
    by_cases hx : x.2 = q <;>
      simp only [sortPairsDesc] at ih <;>
      simp [List.filter_cons, hx, ih]

/-- When key computation succeeds, the decorated list carries exactly
the input models, in order. -/
theorem computeKeys_map_fst :
    ∀ {models : List ModelDescriptor}
      {pairs : List (ModelDescriptor × ℚ)},
      computeKeys models = .ok pairs → pairs.map Prod.fst = models := by
  intro models
  induction models with
  | nil =>
    intro pairs h
    simp only [computeKeys] at h
    injection h with h
    simp [← h]
  | cons m ms ih =>
    intro pairs h
    simp only [computeKeys] at h
    cases hm : get_total_price m with
    | error e => rw [hm] at h; cases h
    | ok q =>
      rw [hm] at h
      cases hk : computeKeys ms with
      | error e => rw [hk] at h; cases h
      | ok rest =>
        rw [hk] at h
        injection h with h
        simp [← h, ih hk]

/-- When key computation succeeds, every decorated pair records its
model's (successfully computed) total price. -/
theorem computeKeys_prices :
    ∀ {models : List ModelDescriptor}
      {pairs : List (ModelDescriptor × ℚ)},
      computeKeys models = .ok pairs →
      ∀ p ∈ pairs, get_total_price p.1 = .ok p.2 := by
  intro models
  induction models with
  | nil =>
    intro pairs h
    simp only [computeKeys] at h
    injection h with h
    simp [← h]
  | cons m ms ih =>
    intro pairs h
    simp only [computeKeys] at h
    cases hm : get_total_price m with
    | error e => rw [hm] at h; cases h
    | ok q =>
      rw [hm] at h
      cases hk : computeKeys ms with
      | error e => rw [hk] at h; cases h
      | ok rest =>
        rw [hk] at h
        injection h with h
        intro p hp
        rw [← h] at hp
        rcases List.mem_cons.mp hp with hp | hp
        · rw [hp]; exact hm
        · exact ih hk p hp

/-- C6: once the pricing keys are computed, the report's model ordering
(`sortPairsDesc`, feeding the display loop of `save_models_to_file`) is
a permutation of the catalog's decorated models, descending by total
price, and any two models with equal total price keep their
provider-supplied relative order (filtering by any fixed price is
unchanged by the sort). -/
theorem catalog_sorted_desc_stable (models : List ModelDescriptor)
    (pairs : List (ModelDescriptor × ℚ))
    (h : computeKeys models = .ok pairs) :
    pairs.map Prod.fst = models ∧
    (sortPairsDesc pairs).Perm pairs ∧
    List.Sorted priceGE (sortPairsDesc pairs) ∧
    ∀ q : ℚ, (sortPairsDesc pairs).filter (fun p => decide (p.2 = q)) =
      pairs.filter (fun p => decide (p.2 = q)) :=
  ⟨computeKeys_map_fst h, List.perm_insertionSort priceGE pairs,
   List.sorted_insertionSort priceGE pairs,
   fun q => filter_sortPairsDesc pairs q⟩

/-- Evaluation: total price of the concrete 0.005/0.005 model. -/
theorem get_total_price_mCheap : get_total_price mCheap = .ok (1 / 100) := by
  have hp : priceOf (mCheap.pricing.getD []) "prompt" = some (5 / 1000) := by
    simp [mCheap, priceOf, dictGet, parseDecimal_0005]
  have hc : priceOf (mCheap.pricing.getD []) "completion" =
      some (5 / 1000) := by
    simp [mCheap, priceOf, dictGet, parseDecimal_0005]
  simp only [get_total_price, hp, hc]
  norm_num

/-- Evaluation: total price of the concrete 0.003/0.015 model. -/
theorem get_total_price_mPricey :
    get_total_price mPricey = .ok (18 / 1000) := by
  have hp : priceOf (mPricey.pricing.getD []) "prompt" = some (3 / 1000) := by
    simp [mPricey, priceOf, dictGet, parseDecimal_0003]
  have hc : priceOf (mPricey.pricing.getD []) "completion" =
      some (15 / 1000) := by
    simp [mPricey, priceOf, dictGet, parseDecimal_0015]
  simp only [get_total_price, hp, hc]
  norm_num

/-- Evaluation: total price of the concrete prompt-only 0.01 model (its
completion rate is missing, hence 0). -/
theorem get_total_price_mCheapBis :
    get_total_price mCheapBis = .ok (1 / 100) := by
  have hp : priceOf (mCheapBis.pricing.getD []) "prompt" =
      some (1 / 100) := by
    simp [mCheapBis, priceOf, dictGet, parseDecimal_001]
  have hc : priceOf (mCheapBis.pricing.getD []) "completion" = some 0 := by
    simp [mCheapBis, priceOf, dictGet]
  simp only [get_total_price, hp, hc]
  norm_num

/-- Closed witness for C6: a three-model catalog with a tie (two models
at total price 0.010 around one at 0.018); the key computation
hypothesis is discharged by evaluating the three total prices. -/
theorem catalog_sorted_desc_stable_witness :
    ([(mCheap, 1 / 100), (mPricey, 18 / 1000), (mCheapBis, 1 / 100)].map
        Prod.fst = [mCheap, mPricey, mCheapBis]) ∧
    (sortPairsDesc
        [(mCheap, 1 / 100), (mPricey, 18 / 1000),
          (mCheapBis, 1 / 100)]).Perm
      [(mCheap, 1 / 100), (mPricey, 18 / 1000), (mCheapBis, 1 / 100)] ∧
    List.Sorted priceGE
      (sortPairsDesc
        [(mCheap, 1 / 100), (mPricey, 18 / 1000), (mCheapBis, 1 / 100)]) ∧
    ∀ q : ℚ,
      (sortPairsDesc
          [(mCheap, 1 / 100), (mPricey, 18 / 1000),
            (mCheapBis, 1 / 100)]).filter (fun p => decide (p.2 = q)) =
        [(mCheap, 1 / 100), (mPricey, 18 / 1000),
          (mCheapBis, 1 / 100)].filter (fun p => decide (p.2 = q)) :=
  catalog_sorted_desc_stable [mCheap, mPricey, mCheapBis]
    [(mCheap, 1 / 100), (mPricey, 18 / 1000), (mCheapBis, 1 / 100)]
    (by simp [computeKeys, get_total_price_mCheap, get_total_price_mPricey,
      get_total_price_mCheapBis])

/-- Evaluation: the malformed catalog entry fails its price
computation. -/
theorem get_total_price_broken :
    get_total_price
        ⟨"broken/model", some [("prompt", "not-a-number")], []⟩ =
      .error .valueError := by
  simp [get_total_price, priceOf, dictGet, parseDecimal_nan]

/-- When every model in the list has a computable total price, the
display loop writes all its entries without raising. -/
theorem writeEntries_ok :
    ∀ {ms : List ModelDescriptor},
      (∀ m ∈ ms, ∃ q, get_total_price m = .ok q) →
      ∃ body, writeEntries ms = .ok body := by
  intro ms
  induction ms with
  | nil => exact fun _ => ⟨[], rfl⟩
  | cons m ms ih =>
    intro h
    obtain ⟨q, hq⟩ := h m (List.mem_cons_self m ms)
    obtain ⟨body, hb⟩ := ih (fun x hx => h x (List.mem_cons_of_mem m hx))
    exact ⟨entryLines m q ++ body, by simp only [writeEntries, hq, hb]⟩

/-- C4 counterexample: on a catalog whose single model has the
non-numeric pricing value "not-a-number", `save_models_to_file` raises
a parse error *after* the report header has been written, so a
partially written (non-empty) report file is left behind — contrary to
the claim that a parse error on malformed catalog pricing leaves no
partially written report file. -/
theorem catalog_partial_artifact_counterexample :
    (save_models_to_file badCatalog).2 = some ParseError.valueError ∧
    (save_models_to_file badCatalog).1 ≠ [] := by
  have h : computeKeys (badCatalog.data.getD []) = .error .valueError := by
    simp [badCatalog, computeKeys, get_total_price_broken]
  constructor
  · simp [save_models_to_file, h]
  · simp [save_models_to_file, h, headerLines]

/-- C4 amended: the comparison-record artifact is only written after
all aggregation work has settled, but the catalog report is *not*
all-or-nothing — its three header lines are written before any pricing
value is parsed, so when pricing parsing fails the file holds exactly
the header (a partial artifact) and nothing of the model entries or the
trailer. -/
theorem catalog_error_writes_header_only (md : ModelsData)
    (h : (save_models_to_file md).2.isSome) :
    (save_models_to_file md).1 = headerLines := by
  rcases hk : computeKeys (md.data.getD []) with e | pairs
  · simp [save_models_to_file, hk]
  · exfalso
    have hall : ∀ m ∈ (sortPairsDesc pairs).map Prod.fst,
        ∃ q, get_total_price m = .ok q := by
      intro m hm
      obtain ⟨p, hp, rfl⟩ := List.mem_map.mp hm
      have hp2 : p ∈ pairs :=
        (List.perm_insertionSort priceGE pairs).mem_iff.mp hp
      exact ⟨p.2, computeKeys_prices hk p hp2⟩
    obtain ⟨body, hb⟩ := writeEntries_ok hall
    simp only [save_models_to_file, hk, hb] at h
    simp at h

/-- Closed witness for the amended C4, at the malformed catalog. -/
theorem catalog_error_writes_header_only_witness :
    (save_models_to_file badCatalog).1 = headerLines :=
  catalog_error_writes_header_only badCatalog (by
    have h : computeKeys (badCatalog.data.getD []) = .error .valueError := by
      simp [badCatalog, computeKeys, get_total_price_broken]
    simp [save_models_to_file, h])

/-- C7: a prompt that is empty (strips to the empty string) is rejected
before dispatch: `main` prints the user-facing message and returns
normally, with zero completion requests issued and nothing saved. -/
theorem main_rejects_empty_prompt (client : Client)
    (modelIds : List String) (p timestamp : String)
    (h : strip p = "") :
    main client modelIds p timestamp =
      { messages := ["Prompt cannot be empty. Exiting."]
        completionRequests := 0
        saved := none } := by
  simp [main, h]

/-- Closed witness for C7: the empty prompt, with the full `MODELS`
list and an always-failing client. -/
theorem main_rejects_empty_prompt_witness :
    main (failingClient "boom" 1) MODELS "" "20250101_000000" =
      { messages := ["Prompt cannot be empty. Exiting."]
        completionRequests := 0
        saved := none } :=
  main_rejects_empty_prompt (failingClient "boom" 1) MODELS ""
    "20250101_000000" (by decide)

/-- C9: with the credential variable absent, the catalog fetcher raises
its configuration error before issuing the HTTP request (zero requests
observed), and the client constructor used by the query tools fails at
construction, so no request is ever sent with a missing credential. -/
theorem missing_key_fails_before_network (env : Env) (curl : CurlOutcome)
    (jsonLoads : String → Option ModelsData) (h : env.apiKey = none) :
    (get_openrouter_models env curl jsonLoads).1 =
      .error
        (.valueError "OPENROUTER_API_KEY environment variable not found") ∧
    (get_openrouter_models env curl jsonLoads).2 = 0 ∧
    OpenRouterClient_init env =
      .error "The api_key client option must be set" := by
  simp [get_openrouter_models, OpenRouterClient_init, OpenAI_init, h]

/-- Closed witness for C9: empty environment, a curl oracle that would
succeed, a parse oracle that would fail — neither is consulted. -/
theorem missing_key_fails_before_network_witness :
    (get_openrouter_models ⟨none⟩ (.success "{}") (fun _ => none)).1 =
      .error
        (.valueError "OPENROUTER_API_KEY environment variable not found") ∧
    (get_openrouter_models ⟨none⟩ (.success "{}") (fun _ => none)).2 = 0 ∧
    OpenRouterClient_init ⟨none⟩ =
      .error "The api_key client option must be set" :=
  missing_key_fails_before_network ⟨none⟩ (.success "{}") (fun _ => none) rfl
